import Mathlib

/-!
Verification of the slide intelligence module of the speaker-notes generator:
slide type classification, insight extraction, adaptive structure lookup,
transition phrases and presentation-level orchestration, shallowly embedded
from src/slide_intelligence.py.  The regular expressions of the source are
embedded as explicit regex syntax trees matched with Brzozowski derivatives;
each table entry carries the source pattern in a nearby comment.  Strings are
handled as lists of characters; lowercasing is ASCII, which covers every
pattern and input considered here.
-/

namespace SNG

/-- Python regex whitespace class (ASCII part), used by the patterns here. -/
def isSpaceChar (c : Char) : Bool :=
  c = ' ' || c = '\t' || c = '\n' || c = '\r' || c = '\x0b' || c = '\x0c'

/-- Python regex word-character class (ASCII part). -/
def isWordChar (c : Char) : Bool :=
  c.isAlphanum || c = '_'

/-- Regex syntax: empty language, empty string, character predicate,
concatenation, alternation, Kleene star. -/
inductive RE where
  | emp : RE
  | eps : RE
  | pred : (Char → Bool) → RE
  | cat : RE → RE → RE
  | alt : RE → RE → RE
  | star : RE → RE

/-- Does the regex accept the empty string. -/
def nullable : RE → Bool
  | .emp => false
  | .eps => true
  | .pred _ => false
  | .cat r s => nullable r && nullable s
  | .alt r s => nullable r || nullable s
  | .star _ => true

/-- Smart alternation keeping derivatives small. -/
def altS : RE → RE → RE
  | .emp, s => s
  | r, .emp => r
  | r, s => .alt r s

/-- Smart concatenation keeping derivatives small. -/
def catS : RE → RE → RE
  | .emp, _ => .emp
  | _, .emp => .emp
  | .eps, s => s
  | r, .eps => r
  | r, s => .cat r s

/-- Brzozowski derivative of a regex by one character. -/
def rderiv : RE → Char → RE
  | .emp, _ => .emp
  | .eps, _ => .emp
  | .pred p, c => if p c then .eps else .emp
  | .cat r s, c =>
    if nullable r then altS (catS (rderiv r c) s) (rderiv s c)
    else catS (rderiv r c) s
  | .alt r s, c => altS (rderiv r c) (rderiv s c)
  | .star r, c => catS (rderiv r c) (.star r)

/-- Does the regex match some prefix of the character list (anchored match). -/
def matchesPre : RE → List Char → Bool
  | r, [] => nullable r
  | r, c :: l => nullable r || matchesPre (rderiv r c) l

/-- Python re.search truthiness: does the regex match anywhere in the list. -/
def reSearch (r : RE) : List Char → Bool
  | [] => nullable r
  | l@(_ :: t) => matchesPre r l || reSearch r t

/-- Single-character regex. -/
def chrRE (c : Char) : RE := .pred (fun d => d = c)

def litRE : List Char → RE
  | [] => .eps
  | c :: cs => .cat (chrRE c) (litRE cs)

/-- Literal string regex. -/
def lit (s : String) : RE := litRE s.toList

/-- Concatenation of a list of regexes. -/
def cats : List RE → RE
  | [] => .eps
  | r :: rs => .cat r (cats rs)

/-- Alternation of a list of regexes. -/
def alts : List RE → RE
  | [] => .emp
  | [r] => r
  | r :: rs => .alt r (alts rs)

/-- Optional regex, the question-mark quantifier. -/
def opt (r : RE) : RE := .alt r .eps

/-- One or more repetitions, the plus quantifier. -/
def plusRE (r : RE) : RE := .cat r (.star r)

def wsRE : RE := .pred isSpaceChar

def digitRE : RE := .pred Char.isDigit

/-- A dot without DOTALL: any character except newline. -/
def dotRE : RE := .pred (fun c => c ≠ '\n')

/-- The literal occurs at the head of the list and the following position is a
word boundary: the next character is absent or not a word character. -/
def litAtWordEnd (pat l : List Char) : Bool :=
  List.isPrefixOf pat l &&
    (match l.drop pat.length with
     | [] => true
     | c :: _ => !(isWordChar c))

/-- re.search for a literal (which ends in a word character) followed by a
word boundary. -/
def searchLitWordEnd (pat : List Char) : List Char → Bool
  | [] => false
  | l@(_ :: t) => litAtWordEnd pat l || searchLitWordEnd pat t

/-- Attempts of the regex at every position whose previous character is not a
word character; together with the attempt at the start of the string this
models a leading word boundary before a pattern that starts with a word
character, as in the key-statistics pattern. -/
def searchBAux (r : RE) : List Char → Bool
  | [] => false
  | c :: t => (!(isWordChar c) && matchesPre r t) || searchBAux r t

def searchBoundary (r : RE) (l : List Char) : Bool :=
  matchesPre r l || searchBAux r l

/-- SlideType enumeration from slide_intelligence.py. -/
inductive SlideType where
  | TITLE
  | INTRO
  | AGENDA
  | CONTENT
  | DATA_VISUAL
  | COMPARISON
  | TRANSITION
  | SUMMARY
  | CONCLUSION
  | CALL_TO_ACTION
  | APPENDIX
  | QA
deriving DecidableEq

/--
The type_indicators table of SlideAnalyzer: for each slide type the list of
regex matchers.  CONTENT has no entry in the source dict and maps to the
empty list.  Source patterns, in order:
TITLE:        ^\s*slide\s*1\s*:  |  title\s*slide  |  presentation\s*title
INTRO:        introduction | intro\b | overview | welcome | about\s+(us|this|our)
AGENDA:       agenda | outline | today.?s\s+(topics|discussion)
              | table\s*of\s*contents | what\s*we.?ll\s*cover
DATA_VISUAL:  chart | graph | table | figure\s*\d+ | data | statistics
              | metrics | %|percent | growth\s*rate | market\s*size
COMPARISON:   vs\.?|versus | comparison | compare | difference
              | advantages?\s*(and|&)\s*disadvantages?
TRANSITION:   now\s*let.?s | moving\s*(on|forward) | next | turning\s*to
              | shift\s*(our\s*)?focus
SUMMARY:      summary | recap | key\s*(points|takeaways) | in\s*summary
              | to\s*summarize
CONCLUSION:   conclusion | conclud | final\s*thoughts | wrap\s*up | closing
CALL_TO_ACTION: next\s*steps | action\s*items | recommendations
              | what\s*you\s*can\s*do | call\s*to\s*action
APPENDIX:     appendix | additional\s*information | reference | backup\s*slides
QA:           questions\?? | q\s*&\s*a | discussion | thank\s*you
The first TITLE pattern is anchored at the start of the string, hence it uses
matchesPre; all the others use reSearch.
-/
def typeIndicators : SlideType → List (List Char → Bool)
  | .TITLE =>
    [ matchesPre (cats [.star wsRE, lit "slide", .star wsRE, lit "1", .star wsRE, lit ":"]),
      reSearch (cats [lit "title", .star wsRE, lit "slide"]),
      reSearch (cats [lit "presentation", .star wsRE, lit "title"]) ]
  | .INTRO =>
    [ reSearch (lit "introduction"),
      searchLitWordEnd (String.toList "intro"),
      reSearch (lit "overview"),
      reSearch (lit "welcome"),
      reSearch (cats [lit "about", plusRE wsRE, alts [lit "us", lit "this", lit "our"]]) ]
  | .AGENDA =>
    [ reSearch (lit "agenda"),
      reSearch (lit "outline"),
      reSearch (cats [lit "today", opt dotRE, lit "s", plusRE wsRE, alts [lit "topics", lit "discussion"]]),
      reSearch (cats [lit "table", .star wsRE, lit "of", .star wsRE, lit "contents"]),
      reSearch (cats [lit "what", .star wsRE, lit "we", opt dotRE, lit "ll", .star wsRE, lit "cover"]) ]
  | .DATA_VISUAL =>
    [ reSearch (lit "chart"),
      reSearch (lit "graph"),
      reSearch (lit "table"),
      reSearch (cats [lit "figure", .star wsRE, plusRE digitRE]),
      reSearch (lit "data"),
      reSearch (lit "statistics"),
      reSearch (lit "metrics"),
      reSearch (alts [chrRE '%', lit "percent"]),
      reSearch (cats [lit "growth", .star wsRE, lit "rate"]),
      reSearch (cats [lit "market", .star wsRE, lit "size"]) ]
  | .COMPARISON =>
    [ reSearch (alts [cats [lit "vs", opt (chrRE '.')], lit "versus"]),
      reSearch (lit "comparison"),
      reSearch (lit "compare"),
      reSearch (lit "difference"),
      reSearch (cats [lit "advantage", opt (chrRE 's'), .star wsRE, alts [lit "and", chrRE '&'],
                      .star wsRE, lit "disadvantage", opt (chrRE 's')]) ]
  | .TRANSITION =>
    [ reSearch (cats [lit "now", .star wsRE, lit "let", opt dotRE, lit "s"]),
      reSearch (cats [lit "moving", .star wsRE, alts [lit "on", lit "forward"]]),
      reSearch (lit "next"),
      reSearch (cats [lit "turning", .star wsRE, lit "to"]),
      reSearch (cats [lit "shift", .star wsRE, opt (cats [lit "our", .star wsRE]), lit "focus"]) ]
  | .SUMMARY =>
    [ reSearch (lit "summary"),
      reSearch (lit "recap"),
      reSearch (cats [lit "key", .star wsRE, alts [lit "points", lit "takeaways"]]),
      reSearch (cats [lit "in", .star wsRE, lit "summary"]),
      reSearch (cats [lit "to", .star wsRE, lit "summarize"]) ]
  | .CONCLUSION =>
    [ reSearch (lit "conclusion"),
      reSearch (lit "conclud"),
      reSearch (cats [lit "final", .star wsRE, lit "thoughts"]),
      reSearch (cats [lit "wrap", .star wsRE, lit "up"]),
      reSearch (lit "closing") ]
  | .CALL_TO_ACTION =>
    [ reSearch (cats [lit "next", .star wsRE, lit "steps"]),
      reSearch (cats [lit "action", .star wsRE, lit "items"]),
      reSearch (lit "recommendations"),
      reSearch (cats [lit "what", .star wsRE, lit "you", .star wsRE, lit "can", .star wsRE, lit "do"]),
      reSearch (cats [lit "call", .star wsRE, lit "to", .star wsRE, lit "action"]) ]
  | .APPENDIX =>
    [ reSearch (lit "appendix"),
      reSearch (cats [lit "additional", .star wsRE, lit "information"]),
      reSearch (lit "reference"),
      reSearch (cats [lit "backup", .star wsRE, lit "slides"]) ]
  | .QA =>
    [ reSearch (cats [lit "questions", opt (chrRE '?')]),
      reSearch (cats [lit "q", .star wsRE, chrRE '&', .star wsRE, lit "a"]),
      reSearch (lit "discussion"),
      reSearch (cats [lit "thank", .star wsRE, lit "you"]) ]
  | .CONTENT => []

/-- Iteration order of the type_indicators dict (its insertion order). -/
def typeOrder : List SlideType :=
  [.TITLE, .INTRO, .AGENDA, .DATA_VISUAL, .COMPARISON, .TRANSITION,
   .SUMMARY, .CONCLUSION, .CALL_TO_ACTION, .APPENDIX, .QA]

/-- Python str.lower for the ASCII inputs used in this module. -/
def strLower (s : String) : String := String.mk (s.toList.map Char.toLower)

/-- The lowercased search buffer built in identify_slide_type. -/
def combinedText (slide_title slide_content : String) : List Char :=
  (strLower (slide_title ++ " " ++ slide_content)).toList

/-- Number of patterns of a slide type matching a lowercased buffer. -/
def typeScore (t : SlideType) (c : List Char) : Nat :=
  (typeIndicators t).countP (fun m => m c)

/-- The type_scores dict: in table order, each type with a positive match
count together with that count; zero-scoring types are never inserted. -/
def typeScores (c : List Char) : List (SlideType × Nat) :=
  typeOrder.filterMap (fun t => if 0 < typeScore t c then some (t, typeScore t c) else none)

/-- Python max with key over the remaining items: the current item is replaced
only when a later score is strictly greater, so ties keep the earliest. -/
def maxByScore : SlideType → Nat → List (SlideType × Nat) → SlideType
  | c, _, [] => c
  | c, s, p :: r => if s < p.2 then maxByScore p.1 p.2 r else maxByScore c s r

/-- Selection over the score list: empty means the CONTENT default. -/
def pickType : List (SlideType × Nat) → SlideType
  | [] => .CONTENT
  | p :: r => maxByScore p.1 p.2 r

/-- SlideAnalyzer.identify_slide_type. -/
def identify_slide_type (slide_title : String) (slide_content : String) (slide_number : Nat) : SlideType :=
  if slide_number = 1 then .TITLE
  else pickType (typeScores (combinedText slide_title slide_content))

/-- The trend group of visual_patterns:
increase | decrease | growth | decline | rise | fall | trend | trajectory. -/
def trendPatterns : List (List Char → Bool) :=
  [ reSearch (lit "increase"), reSearch (lit "decrease"), reSearch (lit "growth"),
    reSearch (lit "decline"), reSearch (lit "rise"), reSearch (lit "fall"),
    reSearch (lit "trend"), reSearch (lit "trajectory") ]

/-- The comparison group of visual_patterns:
higher\s*than | lower\s*than | compared\s*to | versus | outperform | underperform. -/
def comparisonPatterns : List (List Char → Bool) :=
  [ reSearch (cats [lit "higher", .star wsRE, lit "than"]),
    reSearch (cats [lit "lower", .star wsRE, lit "than"]),
    reSearch (cats [lit "compared", .star wsRE, lit "to"]),
    reSearch (lit "versus"),
    reSearch (lit "outperform"),
    reSearch (lit "underperform") ]

/-- The outlier group of visual_patterns:
significant | notable | exception | unusual | spike | anomaly. -/
def outlierPatterns : List (List Char → Bool) :=
  [ reSearch (lit "significant"), reSearch (lit "notable"), reSearch (lit "exception"),
    reSearch (lit "unusual"), reSearch (lit "spike"), reSearch (lit "anomaly") ]

/-- Tail of the key-statistics pattern
\b\d+\.?\d*\s*%?.*?(growth|increase|decrease|market|share|rate)
after its leading word boundary.  The lazy star has the same matches-somewhere
truth value as the plain star used here. -/
def statTail : RE :=
  cats [plusRE digitRE, opt (chrRE '.'), .star digitRE, .star wsRE, opt (chrRE '%'),
        .star dotRE,
        alts [lit "growth", lit "increase", lit "decrease", lit "market", lit "share", lit "rate"]]

/-- re.search of the key-statistics pattern: its first atom after the word
boundary is a digit, so the boundary holds exactly at the string start or
after a non-word character. -/
def statMatch (l : List Char) : Bool := searchBoundary statTail l

/-- The insights dictionary of extract_data_insights. -/
structure InsightBundle where
  trends : List String
  comparisons : List String
  outliers : List String
  key_findings : List String
deriving DecidableEq

/-- Python split on a newline separator: keeps empty pieces, and the empty
string yields one empty piece. -/
def splitOnNl : List Char → List (List Char)
  | [] => [[]]
  | c :: t =>
    if c = '\n' then [] :: splitOnNl t
    else
      match splitOnNl t with
      | h :: r => (c :: h) :: r
      | [] => [[c]]

/-- Python str.strip: remove whitespace from both ends. -/
def pyStrip (l : List Char) : List Char :=
  ((l.dropWhile isSpaceChar).reverse.dropWhile isSpaceChar).reverse

/-- Per-line body of the extract_data_insights loop.  Appending on the first
matching pattern of a group and breaking is equivalent to appending when any
pattern of the group matches. -/
def lineInsights (ins : InsightBundle) (line : List Char) : InsightBundle :=
  let ll := line.map Char.toLower
  let stripped := String.mk (pyStrip line)
  let ins1 := if trendPatterns.any (fun m => m ll) then
    { ins with trends := ins.trends ++ [stripped] } else ins
  let ins2 := if comparisonPatterns.any (fun m => m ll) then
    { ins1 with comparisons := ins1.comparisons ++ [stripped] } else ins1
  let ins3 := if outlierPatterns.any (fun m => m ll) then
    { ins2 with outliers := ins2.outliers ++ [stripped] } else ins2
  if statMatch ll then { ins3 with key_findings := ins3.key_findings ++ [stripped] } else ins3

/-- SlideAnalyzer.extract_data_insights. -/
def extract_data_insights (visual_description : String) : InsightBundle :=
  (splitOnNl visual_description.toList).foldl lineInsights ⟨[], [], [], []⟩

/-- One entry of the adaptive structure tables. -/
structure AdaptiveStructure where
  bullets : Nat
  focus : List String
  template : List String
deriving DecidableEq

/-- One inner verbosity dict of the structures table, with its three keys. -/
structure VerbosityTable where
  brief : AdaptiveStructure
  standard : AdaptiveStructure
  detailed : AdaptiveStructure

/-- Python dict.get(verbosity, fallback) on a Brief/Standard/Detailed table. -/
def verbosityGet (tbl : VerbosityTable) (verbosity : String) (fallback : AdaptiveStructure) : AdaptiveStructure :=
  if verbosity = "Brief" then tbl.brief
  else if verbosity = "Standard" then tbl.standard
  else if verbosity = "Detailed" then tbl.detailed
  else fallback

/-- structures[SlideType.TITLE]. -/
def title_structure : VerbosityTable :=
  ⟨⟨1, ["Company/topic name", "Key theme"],
    ["Introducing [topic] - [key value proposition]"]⟩,
   ⟨2, ["Introduction", "Context"],
    ["Welcome audience and introduce [topic]",
     "Frame the discussion around [key theme/challenge]"]⟩,
   ⟨3, ["Introduction", "Context", "Preview"],
    ["Welcome and establish credibility on [topic]",
     "Set context: [current situation/challenge]",
     "Preview: We\x27ll explore [main points]"]⟩⟩

/-- structures[SlideType.DATA_VISUAL]. -/
def data_visual_structure : VerbosityTable :=
  ⟨⟨2, ["Key stat", "Implication"],
    ["[Main data point] shows [trend/finding]",
     "This means [business impact]"]⟩,
   ⟨3, ["Data highlight", "Insight", "Action"],
    ["The data reveals [key finding with number]",
     "This [confirms/challenges] our understanding of [topic]",
     "Implication: [what this means for strategy]"]⟩,
   ⟨4, ["Context", "Data", "Analysis", "Implications"],
    ["Context: [Why this data matters]",
     "Key finding: [Specific numbers and trends]",
     "Notable: [Outliers or comparisons]",
     "Strategic implication: [How this shapes decisions]"]⟩⟩

/-- structures[SlideType.COMPARISON]. -/
def comparison_structure : VerbosityTable :=
  ⟨⟨2, ["Winner", "Key differentiator"],
    ["[Option A] outperforms with [key metric]",
     "Main advantage: [differentiator]"]⟩,
   ⟨3, ["Overview", "Key differences", "Recommendation"],
    ["Comparing [A] vs [B] on [criteria]",
     "Key difference: [A] excels at [X], while [B] offers [Y]",
     "For our needs, [recommendation] because [reason]"]⟩,
   ⟨4, ["Setup", "Strengths", "Trade-offs", "Decision"],
    ["We\x27re evaluating [options] based on [criteria]",
     "[A] strengths: [list], [B] strengths: [list]",
     "Trade-offs to consider: [key considerations]",
     "Recommendation: [choice] aligns with [strategic priority]"]⟩⟩

/-- structures[SlideType.CONCLUSION]. -/
def conclusion_structure : VerbosityTable :=
  ⟨⟨2, ["Main takeaway", "Next step"],
    ["Key insight: [main finding/recommendation]",
     "Next: [immediate action]"]⟩,
   ⟨3, ["Recap", "Conclusion", "Call to action"],
    ["We\x27ve seen [key points recap]",
     "This leads us to conclude [main insight]",
     "Moving forward: [specific next steps]"]⟩,
   ⟨4, ["Journey", "Insights", "Implications", "Actions"],
    ["Our analysis covered [main topics]",
     "Key insights: [top 2-3 findings]",
     "This means [strategic implications]",
     "Recommended actions: [prioritized next steps]"]⟩⟩

/-- The default_structure table for content slides. -/
def default_structure : VerbosityTable :=
  ⟨⟨2, ["Main point", "Why it matters"],
    ["[Key message]",
     "[Impact/relevance]"]⟩,
   ⟨3, ["Point", "Evidence", "Implication"],
    ["[Main message]",
     "[Supporting evidence/example]",
     "[What this means for audience]"]⟩,
   ⟨4, ["Context", "Point", "Support", "Application"],
    ["[Setup/context]",
     "[Main point]",
     "[Evidence/examples]",
     "[How to apply/next steps]"]⟩⟩

/-- structures.get(slide_type, ...): only four types have bespoke tables. -/
def structuresGet : SlideType → Option VerbosityTable
  | .TITLE => some title_structure
  | .DATA_VISUAL => some data_visual_structure
  | .COMPARISON => some comparison_structure
  | .CONCLUSION => some conclusion_structure
  | _ => none

/-- SlideAnalyzer.get_adaptive_structure: note that the inner fallback for an
unrecognized verbosity is always the Standard entry of the DEFAULT table. -/
def get_adaptive_structure (slide_type : SlideType) (verbosity : String) : AdaptiveStructure :=
  verbosityGet ((structuresGet slide_type).getD default_structure) verbosity default_structure.standard

/-- The transitions dict of generate_storytelling_transition, in source
order. -/
def transitionsTable : List ((SlideType × SlideType) × String) :=
  [ ((.INTRO, .CONTENT), "Now let\x27s dive into the details..."),
    ((.CONTENT, .DATA_VISUAL), "Let me show you what the data reveals..."),
    ((.DATA_VISUAL, .CONTENT), "These numbers tell us something important..."),
    ((.CONTENT, .COMPARISON), "To put this in perspective, let\x27s compare..."),
    ((.COMPARISON, .CONTENT), "Based on this comparison..."),
    ((.CONTENT, .CONCLUSION), "This brings us to our key takeaways..."),
    ((.CONCLUSION, .CALL_TO_ACTION), "So what does this mean for you?"),
    ((.CONTENT, .CONTENT), "Building on this point..."),
    ((.DATA_VISUAL, .DATA_VISUAL), "Here\x27s another important data point...") ]

/-- Association-list lookup modelling the transitions dict access. -/
def lookupTransition : List ((SlideType × SlideType) × String) → SlideType × SlideType → Option String
  | [], _ => none
  | p :: rest, key => if p.1 = key then some p.2 else lookupTransition rest key

/-- SlideAnalyzer.generate_storytelling_transition. -/
def generate_storytelling_transition (from_type to_type : SlideType) : String :=
  match lookupTransition transitionsTable (from_type, to_type) with
  | some s => s
  | none => "Moving to our next topic..."

/-- Case-insensitive literal match at the head of the list, returning the
remainder. -/
def stripPrefixCI : List Char → List Char → Option (List Char)
  | [], l => some l
  | _ :: _, [] => none
  | p :: ps, c :: cs => if c.toLower = p then stripPrefixCI ps cs else none

/-- Exact literal match at the head of the list, returning the remainder. -/
def stripPrefixExact : List Char → List Char → Option (List Char)
  | [], l => some l
  | _ :: _, [] => none
  | p :: ps, c :: cs => if c = p then stripPrefixExact ps cs else none

/-- Python int of a decimal digit string. -/
def digitsToNat (ds : List Char) : Nat :=
  ds.foldl (fun n c => n * 10 + (c.toNat - 48)) 0

/-- The header part Slide\s+(\d+): of the outline pattern, case-insensitively
at the start of the list; returns the captured number and the remainder after
the colon.  The greedy \s+ and \d+ never need to backtrack because their
successors reject their own character classes. -/
def parseSlideHeader (l : List Char) : Option (Nat × List Char) :=
  match stripPrefixCI (String.toList "slide") l with
  | none => none
  | some l1 =>
    let sp := l1.span isSpaceChar
    if sp.1.isEmpty then none
    else
      let dg := sp.2.span Char.isDigit
      if dg.1.isEmpty then none
      else
        match dg.2 with
        | ':' :: l4 => some (digitsToNat dg.1, l4)
        | _ => none

/-- Lazy scan of (.+?) with DOTALL up to the lookahead Slide\s+\d+: or the end
of the string (Python dollar also matches just before one final newline); at
least one character has already been consumed into the accumulator before the
first lookahead check. -/
def titleScan : List Char → List Char → List Char × List Char
  | acc, [] => (acc.reverse, [])
  | acc, l@(c :: t) =>
    if (parseSlideHeader l).isSome ∨ l = ['\n'] then (acc.reverse, l)
    else titleScan (c :: acc) t

/-- One attempted match of Slide\s+(\d+):\s*(.+?)(?=Slide\s+\d+:|$) at the
head of the list: returns the captured number and title and the remainder
after the match.  The greedy \s* backtracks one character when nothing is
left for the mandatory lazy capture. -/
def matchSlideAt (l : List Char) : Option (Nat × List Char × List Char) :=
  match parseSlideHeader l with
  | none => none
  | some (n, l1) =>
    let sp := l1.span isSpaceChar
    match sp.2 with
    | c :: t =>
      let tr := titleScan [c] t
      some (n, tr.1, tr.2)
    | [] =>
      match sp.1.getLast? with
      | some cw => some (n, [cw], [])
      | none => none

/-- The re.findall scan: a match is attempted at every position from left to
right, resuming after the end of each match.  The fuel only bounds the number
of scan steps; each step either advances one position or past a nonempty
match, so the initial fuel of findallSlidesTop is never exhausted. -/
def findallSlides : Nat → List Char → List (Nat × List Char)
  | 0, _ => []
  | _ + 1, [] => []
  | fuel + 1, l@(_ :: t) =>
    match matchSlideAt l with
    | some (n, title, rest) => (n, title) :: findallSlides fuel rest
    | none => findallSlides fuel t

/-- re.findall of the outline slide pattern over a whole character list. -/
def findallSlidesTop (l : List Char) : List (Nat × List Char) :=
  findallSlides (l.length + 1) l

/-- Length taken by the lazy .*? with DOTALL before the lookahead
Slide\s+\d+: or the end of the string (or a final newline) succeeds. -/
def lazyLen : List Char → Nat
  | [] => 0
  | l@(_ :: t) =>
    if (parseSlideHeader l).isSome ∨ l = ['\n'] then 0
    else 1 + lazyLen t

/-- One attempted match of Slide\s+N:.*?(?=Slide\s+\d+:|$) for the concrete
number N at the head of the list, returning group(0): the matched region of
the original text. -/
def matchVisualAt (n : Nat) (l : List Char) : Option (List Char) :=
  match stripPrefixCI (String.toList "slide") l with
  | none => none
  | some l1 =>
    let sp := l1.span isSpaceChar
    if sp.1.isEmpty then none
    else
      match stripPrefixExact (Nat.repr n).toList sp.2 with
      | none => none
      | some l3 =>
        match l3 with
        | ':' :: l4 => some (l.take (5 + sp.1.length + (Nat.repr n).toList.length + 1 + lazyLen l4))
        | _ => none

/-- re.search of the per-slide visual pattern: leftmost attempted position
wins. -/
def searchVisual (n : Nat) : List Char → Option (List Char)
  | [] => none
  | l@(_ :: t) =>
    match matchVisualAt n l with
    | some g => some g
    | none => searchVisual n t

/-- One record of the intelligence mapping built per parsed slide. -/
structure SlideIntel where
  title : String
  type : SlideType
  insights : Option InsightBundle
  has_visual : Bool
deriving DecidableEq

/-- Python dict assignment d[k] = v on an insertion-ordered association list:
an existing key keeps its position, a new key is appended. -/
def dictInsert (k : Nat) (v : SlideIntel) : List (Nat × SlideIntel) → List (Nat × SlideIntel)
  | [] => [(k, v)]
  | p :: d => if k = p.1 then (k, v) :: d else p :: dictInsert k v d

/-- Loop body of analyze_presentation_intelligence for one parsed slide:
visual block lookup, classification, conditional insight extraction and
record construction.  The empty Python insights dict is modelled as none. -/
def slideRecord (visuals : String) (slide_num : Nat) (slide_title : List Char) : SlideIntel :=
  let visual_content : String :=
    match searchVisual slide_num visuals.toList with
    | some g => String.mk g
    | none => ""
  let slide_type := identify_slide_type (String.mk slide_title) visual_content slide_num
  let insights : Option InsightBundle :=
    if slide_type = SlideType.DATA_VISUAL ∧ visual_content ≠ "" then
      some (extract_data_insights visual_content)
    else none
  ⟨String.mk (pyStrip slide_title), slide_type, insights, visual_content != ""⟩

/-- analyze_presentation_intelligence: parse the outline, build one record per
parsed slide and insert it under its slide number. -/
def analyze_presentation_intelligence (outline : String) (visuals : String) : List (Nat × SlideIntel) :=
  List.foldl (fun intelligence s => dictInsert s.1 (slideRecord visuals s.1 s.2) intelligence) []
    (findallSlidesTop outline.toList)

/-- The transition bullet of format_intelligent_notes, present when a previous
type is supplied and differs from the current type. -/
def transitionLines (prev : Option SlideType) (t : SlideType) : List String :=
  match prev with
  | none => []
  | some p => if p ≠ t then ["• (Transition) " ++ generate_storytelling_transition p t] else []

/-- A single bullet built from the first element of a list, if any. -/
def headBullet (tag : String) : List String → List String
  | [] => []
  | x :: _ => [tag ++ x]

/-- The insight bullets of format_intelligent_notes: nothing for the empty
dict, and otherwise, when some category is nonempty, one Key-trend bullet from
the first trend and one Notable bullet from the first outlier. -/
def insightLines : Option InsightBundle → List String
  | none => []
  | some b =>
    if b.trends ≠ [] ∨ b.comparisons ≠ [] ∨ b.outliers ≠ [] ∨ b.key_findings ≠ [] then
      headBullet "• Key trend: " b.trends ++ headBullet "• Notable: " b.outliers
    else []

/-- The list of note lines assembled by format_intelligent_notes before the
final newline join. -/
def format_notes_lines (slide_num : Nat) (slide_intel : SlideIntel) (verbosity : String)
    (prev_slide_type : Option SlideType) : List String :=
  ("Slide " ++ Nat.repr slide_num ++ ": " ++ slide_intel.title)
    :: (transitionLines prev_slide_type slide_intel.type
        ++ (get_adaptive_structure slide_intel.type verbosity).template.map (fun t => "• " ++ t)
        ++ insightLines slide_intel.insights)

/-- format_intelligent_notes. -/
def format_intelligent_notes (slide_num : Nat) (slide_intel : SlideIntel) (verbosity : String)
    (prev_slide_type : Option SlideType) : String :=
  String.intercalate "\n" (format_notes_lines slide_num slide_intel verbosity prev_slide_type)

/-- Lines of a formatted text, splitting on newline. -/
def linesOf (s : String) : List String :=
  (splitOnNl s.toList).map String.mk

/-! ### Helper lemmas about the score-maximum selection -/

theorem maxByScore_le (r : List (SlideType × Nat)) :
    ∀ c s, (∀ p ∈ r, p.2 ≤ s) → maxByScore c s r = c := by
  induction r with
  | nil => intro c s _; rfl
  | cons hd tl ih =>
    intro c s h
    have hhd := h hd (List.mem_cons_self hd tl)
    simp only [maxByScore]
    rw [if_neg (by omega)]
    exact ih c s (fun p hp => h p (List.mem_cons_of_mem hd hp))

theorem maxByScore_find (r : List (SlideType × Nat)) :
    ∀ c s t st, s < st → (t, st) ∈ r →
      (∀ p ∈ r, p.1 ≠ t → p.2 < st) →
      (∀ p ∈ r, p.1 = t → p.2 = st) →
      maxByScore c s r = t := by
  induction r with
  | nil => intro c s t st _ hmem _ _; simp at hmem
  | cons hd tl ih =>
    intro c s t st hlt hmem hne heq
    simp only [maxByScore]
    by_cases hhd : hd.1 = t
    · have h2 : hd.2 = st := heq hd (List.mem_cons_self hd tl) hhd
      rw [if_pos (by omega)]
      rw [hhd, h2]
      exact maxByScore_le tl t st (fun p hp => by
        by_cases hp1 : p.1 = t
        · exact le_of_eq (heq p (List.mem_cons_of_mem hd hp) hp1)
        · exact le_of_lt (hne p (List.mem_cons_of_mem hd hp) hp1))
    · have hlt2 : hd.2 < st := hne hd (List.mem_cons_self hd tl) hhd
      have hmem2 : (t, st) ∈ tl := by
        rcases List.mem_cons.mp hmem with h | h
        · exact absurd (congrArg Prod.fst h).symm hhd
        · exact h
      have hne2 : ∀ p ∈ tl, p.1 ≠ t → p.2 < st :=
        fun p hp => hne p (List.mem_cons_of_mem hd hp)
      have heq2 : ∀ p ∈ tl, p.1 = t → p.2 = st :=
        fun p hp => heq p (List.mem_cons_of_mem hd hp)
      by_cases hc : s < hd.2
      · rw [if_pos hc]
        exact ih hd.1 hd.2 t st hlt2 hmem2 hne2 heq2
      · rw [if_neg hc]
        exact ih c s t st hlt hmem2 hne2 heq2

theorem pickType_find (l : List (SlideType × Nat)) (t : SlideType) (st : Nat)
    (hmem : (t, st) ∈ l)
    (hne : ∀ p ∈ l, p.1 ≠ t → p.2 < st)
    (heq : ∀ p ∈ l, p.1 = t → p.2 = st) :
    pickType l = t := by
  cases l with
  | nil => simp at hmem
  | cons hd tl =>
    simp only [pickType]
    by_cases hhd : hd.1 = t
    · have h2 : hd.2 = st := heq hd (List.mem_cons_self hd tl) hhd
      rw [hhd, h2]
      exact maxByScore_le tl t st (fun p hp => by
        by_cases hp1 : p.1 = t
        · exact le_of_eq (heq p (List.mem_cons_of_mem hd hp) hp1)
        · exact le_of_lt (hne p (List.mem_cons_of_mem hd hp) hp1))
    · have hlt2 : hd.2 < st := hne hd (List.mem_cons_self hd tl) hhd
      have hmem2 : (t, st) ∈ tl := by
        rcases List.mem_cons.mp hmem with h | h
        · exact absurd (congrArg Prod.fst h).symm hhd
        · exact h
      exact maxByScore_find tl hd.1 hd.2 t st hlt2 hmem2
        (fun p hp => hne p (List.mem_cons_of_mem hd hp))
        (fun p hp => heq p (List.mem_cons_of_mem hd hp))

theorem mem_typeScores {c : List Char} {p : SlideType × Nat} (h : p ∈ typeScores c) :
    p.1 ∈ typeOrder ∧ p.2 = typeScore p.1 c ∧ 0 < p.2 := by
  unfold typeScores at h
  rcases List.mem_filterMap.mp h with ⟨t, ht, hf⟩
  by_cases h0 : 0 < typeScore t c
  · rw [if_pos h0] at hf
    cases hf
    exact ⟨ht, rfl, h0⟩
  · rw [if_neg h0] at hf
    cases hf

theorem typeScores_mem_self {c : List Char} {t : SlideType}
    (ht : t ∈ typeOrder) (h0 : 0 < typeScore t c) :
    (t, typeScore t c) ∈ typeScores c :=
  List.mem_filterMap.mpr ⟨t, ht, by rw [if_pos h0]⟩

theorem countP_zero_of_false {α : Type} (p : α → Bool) (l : List α)
    (h : ∀ a ∈ l, p a = false) : l.countP p = 0 := by
  induction l with
  | nil => rfl
  | cons hd tl ih =>
    have h1 := h hd (List.mem_cons_self hd tl)
    have h2 := ih (fun a ha => h a (List.mem_cons_of_mem hd ha))
    simp [List.countP_cons, h1, h2]

theorem filterMap_nil_of_none {α β : Type} (f : α → Option β) (l : List α)
    (h : ∀ a ∈ l, f a = none) : l.filterMap f = [] := by
  induction l with
  | nil => rfl
  | cons hd tl ih =>
    have h1 := h hd (List.mem_cons_self hd tl)
    have h2 := ih (fun a ha => h a (List.mem_cons_of_mem hd ha))
    simp [List.filterMap_cons, h1, h2]

theorem mem_typeOrder_of_score_pos {t : SlideType} {c : List Char}
    (h : 0 < typeScore t c) : t ∈ typeOrder := by
  cases t
  case CONTENT =>
    exact absurd h (by simp [typeScore, typeIndicators])
  all_goals decide

/-! ### C1-C3, C7: identify_slide_type -/

/-- C1: for every title, content and slide_number at least 2, if exactly one
slide type attains the strictly highest positive count of matching patterns
over the lowercased concatenation of title and content, then
identify_slide_type returns that type; types with zero matching patterns are
excluded from the score dict rather than scored 0. -/
theorem identify_slide_type_unique_max (slide_title slide_content : String)
    (slide_number : Nat) (t : SlideType)
    (hn : 2 ≤ slide_number)
    (hpos : 0 < typeScore t (combinedText slide_title slide_content))
    (hmax : ∀ u ∈ typeOrder, u ≠ t →
      typeScore u (combinedText slide_title slide_content) <
        typeScore t (combinedText slide_title slide_content)) :
    identify_slide_type slide_title slide_content slide_number = t := by
  have hne1 : slide_number ≠ 1 := by omega
  have hto : t ∈ typeOrder := mem_typeOrder_of_score_pos hpos
  unfold identify_slide_type
  rw [if_neg hne1]
  exact pickType_find _ t (typeScore t (combinedText slide_title slide_content))
    (typeScores_mem_self hto hpos)
    (fun p hp hne => by
      rcases mem_typeScores hp with ⟨hu, he, _⟩
      rw [he]
      exact hmax p.1 hu hne)
    (fun p hp heq => by
      rcases mem_typeScores hp with ⟨_, he, _⟩
      rw [he, heq])

/-- Witness for C1 at a concrete input: only DATA_VISUAL scores positively on
the buffer built from the title chart. -/
theorem identify_slide_type_unique_max_witness :
    identify_slide_type "chart" "" 2 = SlideType.DATA_VISUAL :=
  identify_slide_type_unique_max "chart" "" 2 SlideType.DATA_VISUAL
    (by decide) (by decide) (by decide)

/-- C2: with slide_number 1 the classifier returns the TITLE type for every
title and content, without consulting the pattern table. -/
theorem identify_slide_type_slide_one (slide_title slide_content : String) :
    identify_slide_type slide_title slide_content 1 = SlideType.TITLE := rfl

/-- C3: for slide_number at least 2, when no configured type-indicator
pattern matches the lowercased concatenation of title and content, the
classifier returns the CONTENT default. -/
theorem identify_slide_type_no_match_content (slide_title slide_content : String)
    (slide_number : Nat)
    (hn : 2 ≤ slide_number)
    (h : ∀ t ∈ typeOrder, ∀ m ∈ typeIndicators t,
      m (combinedText slide_title slide_content) = false) :
    identify_slide_type slide_title slide_content slide_number = SlideType.CONTENT := by
  have hz : ∀ t ∈ typeOrder, typeScore t (combinedText slide_title slide_content) = 0 :=
    fun t ht => countP_zero_of_false _ _ (fun m hm => h t ht m hm)
  have hnil : typeScores (combinedText slide_title slide_content) = [] := by
    unfold typeScores
    exact filterMap_nil_of_none _ _ (fun t ht => by rw [hz t ht]; simp)
  unfold identify_slide_type
  rw [if_neg (by omega : slide_number ≠ 1), hnil]
  rfl

/-- Witness for C3 at a concrete input matching no pattern. -/
theorem identify_slide_type_no_match_content_witness :
    identify_slide_type "xyz" "" 2 = SlideType.CONTENT :=
  identify_slide_type_no_match_content "xyz" "" 2 (by decide) (by decide)

/-- C7: the title Q3 Revenue Growth Chart with empty content on slide 5 is
classified as DATA_VISUAL. -/
theorem identify_slide_type_data_visual_example :
    identify_slide_type "Q3 Revenue Growth Chart" "" 5 = SlideType.DATA_VISUAL := by decide

/-! ### C4: extract_data_insights on the two-line example -/

/-- Counterexample to C4 as stated: on the two-line input the first line does
NOT land in key_findings, because the statistics pattern requires one of its
business keywords after the number and the word increased precedes 15%. -/
theorem extract_data_insights_example_counterexample :
    ¬ ("Sales increased 15% due to strong demand" ∈
        (extract_data_insights "Sales increased 15% due to strong demand\nNo relevant data here").trends
      ∧ "Sales increased 15% due to strong demand" ∈
        (extract_data_insights "Sales increased 15% due to strong demand\nNo relevant data here").key_findings) := by
  decide

/-- C4 amended: the first line (trimmed) lands in trends only; key_findings
stays empty because the numeric-business pattern needs its keyword after the
number; the second line lands in no category. -/
theorem extract_data_insights_example_amended :
    extract_data_insights "Sales increased 15% due to strong demand\nNo relevant data here" =
      ⟨["Sales increased 15% due to strong demand"], [], [], []⟩ := by
  decide

/-! ### C5: get_adaptive_structure fallback for unknown verbosity -/

/-- Counterexample to C5 as stated: for the TITLE type an unrecognized
verbosity does not fall back to the TITLE Standard entry. -/
theorem get_adaptive_structure_unknown_counterexample :
    get_adaptive_structure SlideType.TITLE "Unknown" ≠
      get_adaptive_structure SlideType.TITLE "Standard" := by
  decide

/-- C5 amended: for every slide type, a verbosity outside Brief, Standard and
Detailed yields the Standard entry of the generic default table; this
coincides with the Standard entry of the selected table only for types
without a bespoke table. -/
theorem get_adaptive_structure_unknown_fallback (slide_type : SlideType) (verbosity : String)
    (h1 : verbosity ≠ "Brief") (h2 : verbosity ≠ "Standard") (h3 : verbosity ≠ "Detailed") :
    get_adaptive_structure slide_type verbosity = default_structure.standard := by
  unfold get_adaptive_structure verbosityGet
  rw [if_neg h1, if_neg h2, if_neg h3]

/-- Witness for the amended C5 at a concrete input. -/
theorem get_adaptive_structure_unknown_fallback_witness :
    get_adaptive_structure SlideType.TITLE "Unknown" = default_structure.standard :=
  get_adaptive_structure_unknown_fallback SlideType.TITLE "Unknown"
    (by decide) (by decide) (by decide)

/-! ### C8: generate_storytelling_transition -/

theorem lookupTransition_none (tbl : List ((SlideType × SlideType) × String))
    (key : SlideType × SlideType) (h : ∀ p ∈ tbl, p.1 ≠ key) :
    lookupTransition tbl key = none := by
  induction tbl with
  | nil => rfl
  | cons hd tl ih =>
    simp only [lookupTransition]
    rw [if_neg (h hd (List.mem_cons_self hd tl))]
    exact ih (fun p hp => h p (List.mem_cons_of_mem hd hp))

/-- C8: the mapped pair introduction-content yields its configured phrase,
every pair absent from the transition table yields the generic fallback
string, and in particular the unmapped pair questions-title does; the
function is total. -/
theorem generate_storytelling_transition_spec :
    generate_storytelling_transition SlideType.INTRO SlideType.CONTENT =
      "Now let\x27s dive into the details..."
    ∧ (∀ from_type to_type : SlideType,
        (∀ p ∈ transitionsTable, p.1 ≠ (from_type, to_type)) →
        generate_storytelling_transition from_type to_type = "Moving to our next topic...")
    ∧ generate_storytelling_transition SlideType.QA SlideType.TITLE =
      "Moving to our next topic..." := by
  refine ⟨by decide, ?_, by decide⟩
  intro from_type to_type h
  unfold generate_storytelling_transition
  rw [lookupTransition_none transitionsTable (from_type, to_type) h]

/-- Witness for C8 at the concrete unmapped pair. -/
theorem generate_storytelling_transition_spec_witness :
    generate_storytelling_transition SlideType.QA SlideType.TITLE =
      "Moving to our next topic..." :=
  generate_storytelling_transition_spec.2.1 SlideType.QA SlideType.TITLE (by decide)

/-! ### C9: keys of the intelligence mapping -/

theorem dictInsert_fst_mem (k : Nat) (v : SlideIntel) (d : List (Nat × SlideIntel)) (m : Nat) :
    m ∈ (dictInsert k v d).map Prod.fst ↔ m = k ∨ m ∈ d.map Prod.fst := by
  induction d with
  | nil => simp [dictInsert]
  | cons hd tl ih =>
    simp only [dictInsert]
    by_cases hk : k = hd.1
    · rw [if_pos hk]
      subst hk
      simp only [List.map_cons, List.mem_cons]
      tauto
    · rw [if_neg hk]
      simp only [List.map_cons, List.mem_cons, ih]
      tauto

theorem dictInsert_fst_nodup (k : Nat) (v : SlideIntel) (d : List (Nat × SlideIntel))
    (h : (d.map Prod.fst).Nodup) : ((dictInsert k v d).map Prod.fst).Nodup := by
  induction d with
  | nil => simp [dictInsert]
  | cons hd tl ih =>
    simp only [List.map_cons, List.nodup_cons] at h
    simp only [dictInsert]
    by_cases hk : k = hd.1
    · rw [if_pos hk]
      subst hk
      simp only [List.map_cons, List.nodup_cons]
      exact h
    · rw [if_neg hk]
      simp only [List.map_cons, List.nodup_cons]
      refine ⟨?_, ih h.2⟩
      intro hc
      rcases (dictInsert_fst_mem k v tl hd.1).mp hc with hc | hc
      · exact hk hc.symm
      · exact h.1 hc

theorem foldl_dictInsert_mem (f : Nat × List Char → SlideIntel)
    (xs : List (Nat × List Char)) :
    ∀ (d : List (Nat × SlideIntel)) (n : Nat),
      n ∈ (List.foldl (fun acc s => dictInsert s.1 (f s) acc) d xs).map Prod.fst ↔
        n ∈ d.map Prod.fst ∨ n ∈ xs.map Prod.fst := by
  induction xs with
  | nil => intro d n; simp
  | cons hd tl ih =>
    intro d n
    simp only [List.foldl_cons, List.map_cons, List.mem_cons]
    rw [ih]
    rw [dictInsert_fst_mem]
    tauto

theorem foldl_dictInsert_nodup (f : Nat × List Char → SlideIntel)
    (xs : List (Nat × List Char)) :
    ∀ (d : List (Nat × SlideIntel)), (d.map Prod.fst).Nodup →
      ((List.foldl (fun acc s => dictInsert s.1 (f s) acc) d xs).map Prod.fst).Nodup := by
  induction xs with
  | nil => intro d h; simpa using h
  | cons hd tl ih =>
    intro d h
    simp only [List.foldl_cons]
    exact ih _ (dictInsert_fst_nodup hd.1 (f hd) d h)

/-- C9: for every outline and visuals text, the intelligence mapping holds
each slide number as a key at most once, and its key set is exactly the set
of slide numbers captured by the Slide-N parse of the outline, with no
gap-filling or renumbering. -/
theorem analyze_keys_exact (outline visuals : String) :
    ((analyze_presentation_intelligence outline visuals).map Prod.fst).Nodup
    ∧ ∀ n : Nat,
        n ∈ (analyze_presentation_intelligence outline visuals).map Prod.fst ↔
          n ∈ (findallSlidesTop outline.toList).map Prod.fst := by
  constructor
  · exact foldl_dictInsert_nodup (fun s => slideRecord visuals s.1 s.2)
      (findallSlidesTop outline.toList) [] (by simp)
  · intro n
    have h := foldl_dictInsert_mem (fun s => slideRecord visuals s.1 s.2)
      (findallSlidesTop outline.toList) [] n
    simp only [List.map_nil, List.not_mem_nil, false_or] at h
    exact h

/-! ### C10: shape of the formatted note lines -/

theorem mem_headBullet {tag line : String} {l : List String}
    (h : line ∈ headBullet tag l) : ∃ x, l.head? = some x ∧ line = tag ++ x := by
  cases l with
  | nil => simp [headBullet] at h
  | cons hd tl =>
    simp only [headBullet, List.mem_singleton] at h
    exact ⟨hd, rfl, h⟩

theorem mem_insightLines {ins : Option InsightBundle} {line : String}
    (h : line ∈ insightLines ins) :
    (∃ b tr, ins = some b ∧ b.trends.head? = some tr ∧ line = "• Key trend: " ++ tr)
    ∨ (∃ b o, ins = some b ∧ b.outliers.head? = some o ∧ line = "• Notable: " ++ o) := by
  cases ins with
  | none => simp [insightLines] at h
  | some b =>
    simp only [insightLines] at h
    by_cases hc : b.trends ≠ [] ∨ b.comparisons ≠ [] ∨ b.outliers ≠ [] ∨ b.key_findings ≠ []
    · rw [if_pos hc] at h
      rcases List.mem_append.mp h with h | h
      · rcases mem_headBullet h with ⟨x, hx, hl⟩
        exact Or.inl ⟨b, x, rfl, hx, hl⟩
      · rcases mem_headBullet h with ⟨x, hx, hl⟩
        exact Or.inr ⟨b, x, rfl, hx, hl⟩
    · rw [if_neg hc] at h
      simp at h

/-- C10: every line emitted by format_intelligent_notes is the header, a
transition bullet, a template bullet, a Key-trend bullet built from the first
trends entry, or a Notable bullet built from the first outliers entry; in
particular no comparisons or key_findings entry is ever emitted as a line. -/
theorem format_notes_lines_shape (slide_num : Nat) (slide_intel : SlideIntel)
    (verbosity : String) (prev_slide_type : Option SlideType) (line : String)
    (h : line ∈ format_notes_lines slide_num slide_intel verbosity prev_slide_type) :
    line = "Slide " ++ Nat.repr slide_num ++ ": " ++ slide_intel.title
    ∨ (∃ p, prev_slide_type = some p ∧ p ≠ slide_intel.type ∧
        line = "• (Transition) " ++ generate_storytelling_transition p slide_intel.type)
    ∨ (∃ t ∈ (get_adaptive_structure slide_intel.type verbosity).template, line = "• " ++ t)
    ∨ (∃ b tr, slide_intel.insights = some b ∧ b.trends.head? = some tr ∧
        line = "• Key trend: " ++ tr)
    ∨ (∃ b o, slide_intel.insights = some b ∧ b.outliers.head? = some o ∧
        line = "• Notable: " ++ o) := by
  unfold format_notes_lines at h
  rcases List.mem_cons.mp h with h | h
  · exact Or.inl h
  rcases List.mem_append.mp h with h | h
  · rcases List.mem_append.mp h with h | h
    · right; left
      cases prev_slide_type with
      | none => simp [transitionLines] at h
      | some p =>
        simp only [transitionLines] at h
        by_cases hp : p ≠ slide_intel.type
        · rw [if_pos hp] at h
          simp only [List.mem_singleton] at h
          exact ⟨p, rfl, hp, h⟩
        · rw [if_neg hp] at h
          simp at h
    · right; right; left
      rcases List.mem_map.mp h with ⟨t, ht, hl⟩
      exact ⟨t, ht, hl.symm⟩
  · rcases mem_insightLines h with h | h
    · exact Or.inr (Or.inr (Or.inr (Or.inl h)))
    · exact Or.inr (Or.inr (Or.inr (Or.inr h)))

/-- Witness for C10 at a concrete slide record and line. -/
theorem format_notes_lines_shape_witness :
    "Slide 3: T" ∈ format_notes_lines 3 ⟨"T", SlideType.CONTENT, none, false⟩ "Brief" none
    ∧ ("Slide 3: T" = "Slide " ++ Nat.repr 3 ++ ": " ++
          (SlideIntel.mk "T" SlideType.CONTENT none false).title
      ∨ (∃ p, (none : Option SlideType) = some p ∧ p ≠ SlideType.CONTENT ∧
          "Slide 3: T" = "• (Transition) " ++ generate_storytelling_transition p SlideType.CONTENT)
      ∨ (∃ t ∈ (get_adaptive_structure SlideType.CONTENT "Brief").template,
          "Slide 3: T" = "• " ++ t)
      ∨ (∃ b tr, (none : Option InsightBundle) = some b ∧ b.trends.head? = some tr ∧
          "Slide 3: T" = "• Key trend: " ++ tr)
      ∨ (∃ b o, (none : Option InsightBundle) = some b ∧ b.outliers.head? = some o ∧
          "Slide 3: T" = "• Notable: " ++ o)) :=
  ⟨by decide,
   format_notes_lines_shape 3 ⟨"T", SlideType.CONTENT, none, false⟩ "Brief" none
     "Slide 3: T" (by decide)⟩

/-! ### C6: round trip from outline to formatted notes -/

/-- C6: analysing the two-slide outline with matching visuals text and
formatting each slide with its predecessor type yields a first block whose
first line is the slide-1 header, and a second block whose line after the
header is a transition bullet, since slide 1 is TITLE and slide 2 is
DATA_VISUAL. -/
theorem analyze_format_roundtrip_two_slides :
    (((analyze_presentation_intelligence "Slide 1: Welcome\nSlide 2: Q1 Sales Data"
        "Slide 1: Welcome\nSlide 2: Q1 Sales Data").lookup 1).map
      (fun r => (linesOf (format_intelligent_notes 1 r "Standard" none)).head?))
      = some (some "Slide 1: Welcome")
    ∧ (((analyze_presentation_intelligence "Slide 1: Welcome\nSlide 2: Q1 Sales Data"
        "Slide 1: Welcome\nSlide 2: Q1 Sales Data").lookup 2).map
      (fun r => (linesOf (format_intelligent_notes 2 r "Standard"
          (((analyze_presentation_intelligence "Slide 1: Welcome\nSlide 2: Q1 Sales Data"
            "Slide 1: Welcome\nSlide 2: Q1 Sales Data").lookup 1).map
            (fun q => q.type)))).get? 1))
      = some (some "• (Transition) Moving to our next topic...") := by
  decide

end SNG
